import Mathlib

/-!
Shallow embedding of src/apk.c (collectd-apk plugin) and verification of its
specification.  C strings are modelled as `List Char` holding the characters
before the terminating NUL; fixed-size C buffers are `List Char` of the
buffer's size with `'\x00'` marking unused bytes; NULL-able pointers are
`Option`; a pointer to a heap object carries its address as a `Nat` tag so
that C pointer comparison is equality of the modelled pointers.
-/

namespace CollectdApk

/-- The fields of `struct apk_package` that src/apk.c reads: `name` models the
NULL-able `pkg->name` pointer, `origin` the NULL-able `pkg->origin` blob
pointer, `version` the version blob. -/
structure ApkPackage where
  name : Option String
  origin : Option String
  version : String
deriving DecidableEq

/-- A pointer to a package object: `none` is NULL, `some (a, p)` a pointer with
address `a` to an object holding `p`.  Distinct live C objects (distinct
addresses) may hold equal field values, so the address tag keeps the pointer
comparison `change->old_pkg != change->new_pkg` faithful. -/
abbrev PkgPtr := Option (Nat × ApkPackage)

/-- One entry of the solver changeset (`struct apk_change`): pointers to the
old and the new package, either of which may be NULL. -/
structure ApkChange where
  old_pkg : PkgPtr
  new_pkg : PkgPtr
deriving DecidableEq

/-- How a call of `apk_change_to_json` can go wrong: the three `assert`s at
the top of the function, in source order, and the unchecked dereference
`*old_pkg->origin` that follows them.  A failed `assert` or the NULL
dereference aborts the process. -/
inductive CFault where
  | assertOldPkgNull
  | assertOldNameNull
  | assertNewPkgNull
  | originNullDeref
deriving DecidableEq

/-- Whether the fault comes from one of the three `assert` statements, as
opposed to the unchecked NULL dereference of `old_pkg->origin`. -/
def CFault.isAssert : CFault → Bool
  | .assertOldPkgNull => true
  | .assertOldNameNull => true
  | .assertNewPkgNull => true
  | .originNullDeref => false

/-- The JSON object built by `apk_change_to_json`: the four string members
added under the keys "p", "o", "v" and "w", in that order. -/
structure JsonRecord where
  p : String
  o : String
  v : String
  w : String
deriving DecidableEq

/-- `apk_change_to_json(change)` from src/apk.c: assert `old_pkg`,
`old_pkg->name` and `new_pkg` non-NULL (in that order), then read
`old_pkg->name->name`, `*old_pkg->origin`, `*old_pkg->version`,
`*new_pkg->version` and build the JSON object.  There is no assert on
`old_pkg->origin`; a NULL origin reaches the dereference unchecked. -/
def apk_change_to_json (change : ApkChange) : Except CFault JsonRecord :=
  match change.old_pkg with
  | none => .error .assertOldPkgNull
  | some (_, old) =>
    match old.name with
    | none => .error .assertOldNameNull
    | some pkgname =>
      match change.new_pkg with
      | none => .error .assertNewPkgNull
      | some (_, newPkg) =>
        match old.origin with
        | none => .error .originNullDeref
        | some origin =>
          .ok { p := pkgname, o := origin, v := old.version, w := newPkg.version }

/-- The changeset loop of `apk_upgradable_read` (src/apk.c lines 193-203):
walk the changes in solver order; whenever `change->old_pkg != change->new_pkg`
(a C pointer comparison) increment `count` and append `apk_change_to_json
change` to the `pkgs` array; otherwise skip.  A fault inside
`apk_change_to_json` aborts the whole loop. -/
def collectChanges : List ApkChange → Except CFault (Nat × List JsonRecord)
  | [] => .ok (0, [])
  | c :: rest =>
    if c.old_pkg ≠ c.new_pkg then
      match apk_change_to_json c with
      | .error f => .error f
      | .ok r =>
        match collectChanges rest with
        | .error f => .error f
        | .ok (n, rs) => .ok (n + 1, r :: rs)
    else
      collectChanges rest

/-- The character class of `strcspn(str, " \t\r\n;")` in
`parse_enclosed_word`. -/
def isWordEnd (c : Char) : Bool :=
  c = ' ' || c = '\t' || c = '\r' || c = '\n' || c = ';'

/-- `strchr(s, c)` as used by `parse_enclosed_word`: the index of the first
occurrence of `c` in `s`, `none` when absent (NULL return). -/
def strchrIdx (s : List Char) (c : Char) : Option Nat :=
  match s with
  | [] => none
  | d :: rest => if d = c then some 0 else (strchrIdx rest c).map (· + 1)

/-- `strncpy(dest, src, n)` on a fixed buffer: the first `n` bytes of `dest`
become `src` (NUL-padded when `src` is shorter than `n`), the rest of `dest`
is untouched.  `src` is the content of a C string (no interior NULs). -/
def strncpyBuf (dest src : List Char) (n : Nat) : List Char :=
  let copied := src.take n
  copied ++ List.replicate (n - copied.length) '\x00' ++ dest.drop n

/-- `parse_enclosed_word(dest, str, max_len)` from src/apk.c.  `dest` is the
destination buffer, `str` the C string being parsed.  Returns the new buffer
contents and the C return value: `-1` when `str` starts with a single or
double quote that never recurs (unmatched quote; `dest` untouched), otherwise
the token length `len` (which may exceed `max_len`; only
`min len max_len` bytes are copied). -/
def parse_enclosed_word (dest : List Char) (str : List Char) (max_len : Nat) :
    List Char × Int :=
  match str with
  | c :: rest =>
    if c = '"' ∨ c = '\'' then
      match strchrIdx rest c with
      | none => (dest, -1)
      | some i => (strncpyBuf dest rest (min i max_len), (i : Int))
    else
      let len := (str.takeWhile (fun d => ¬ isWordEnd d)).length
      (strncpyBuf dest str (min len max_len), (len : Int))
  | [] =>
    (strncpyBuf dest [] 0, 0)

/-- Is `c` matched by the scanset `%15[A-Za-z0-9_]`? -/
def isKeyChar (c : Char) : Bool :=
  c.isAlpha || c.isDigit || c = '_'

/-- The characters skipped by the leading blank of the `sscanf` format
(C `isspace`). -/
def cIsSpace (c : Char) : Bool :=
  c = ' ' || c = '\t' || c = '\n' || c = '\x0b' || c = '\x0c' || c = '\r'

/-- The `sscanf(line, " %15[A-Za-z0-9_]=%n", key, &pos)` call of
`read_os_release`: skip whitespace, read at most 15 key characters into
`key` (when there are none, `sscanf` returns less than 1 and the line is
skipped, modelled as `none`), then `pos` is set just past the literal `=`
when `=` is the next character; otherwise `sscanf` still returns 1 and
`pos` keeps its initial value 0. -/
def scanKeyValue (line : List Char) : Option (List Char × Nat) :=
  let ws := (line.takeWhile cIsSpace).length
  let key := ((line.drop ws).takeWhile isKeyChar).take 15
  if key.isEmpty then none
  else
    match line.drop (ws + key.length) with
    | '=' :: _ => some (key, ws + key.length + 1)
    | _ => some (key, 0)

/-- `struct os_release`: two 64-byte character buffers. -/
structure OsRelease where
  id : List Char
  version_id : List Char
deriving DecidableEq

/-- `struct os_release os = { "", "" }`: both buffers zeroed. -/
def osReleaseInit : OsRelease :=
  { id := List.replicate 64 '\x00', version_id := List.replicate 64 '\x00' }

/-- The C string a buffer currently holds: its characters before the first
NUL byte. -/
def bufStr (buf : List Char) : List Char :=
  buf.takeWhile (fun c => c ≠ '\x00')

/-- One iteration of the `fgets` loop body of `read_os_release` on one line:
run the `sscanf`, and when the key is `ID` or `VERSION_ID` parse the value
into the corresponding buffer (the return value of `parse_enclosed_word` is
ignored). -/
def osReleaseLine (os : OsRelease) (line : List Char) : OsRelease :=
  match scanKeyValue line with
  | none => os
  | some (key, pos) =>
    let rest := line.drop pos
    if key = "ID".data then
      { os with id := (parse_enclosed_word os.id rest 64).1 }
    else if key = "VERSION_ID".data then
      { os with version_id := (parse_enclosed_word os.version_id rest 64).1 }
    else
      os

/-- One `fgets(line, 128, fp)` call: at most 127 characters, stopping after a
newline. -/
def takeLine : List Char → Nat → List Char
  | _, 0 => []
  | [], _ => []
  | c :: cs, n + 1 => if c = '\n' then [c] else c :: takeLine cs n

/-- Split a file into the successive strings returned by
`fgets(line, 128, fp)`.  The fuel is the file length: each call consumes at
least one character. -/
def fgetsChunksAux : Nat → List Char → List (List Char)
  | 0, _ => []
  | _, [] => []
  | fuel + 1, c :: cs =>
    let chunk := takeLine (c :: cs) 127
    chunk :: fgetsChunksAux fuel ((c :: cs).drop chunk.length)

/-- All `fgets` results for a whole file. -/
def fgetsChunks (cs : List Char) : List (List Char) :=
  fgetsChunksAux cs.length cs

/-- `read_os_release(dest)` from src/apk.c.  `file` is the content of
/etc/os-release, `none` when `fopen` fails (return `-1`, `dest` untouched).
When the file opens, every `fgets` line is processed and the function
returns 0 regardless of the content: parse failures inside (lines matching
no key, `parse_enclosed_word` returning -1) are ignored. -/
def read_os_release (dest : OsRelease) (file : Option (List Char)) :
    OsRelease × Int :=
  match file with
  | none => (dest, -1)
  | some content => ((fgetsChunks content).foldl osReleaseLine dest, 0)

/-- Severity of a collectd log call (`log_info` / `log_warn` / `log_err`). -/
inductive LogLevel where
  | info
  | warn
  | error
deriving DecidableEq

/-- The metadata attached to the dispatched value list.  A key is `some v`
when the corresponding `meta_data_add_string` call succeeded and `none` when
it failed (the code ignores the result for "os-id" and "os-version", so a
dispatch can carry an absent key).  The "packages" value is kept in parsed
form; the C code stores `json_object_to_json_string_ext(pkgs,
JSON_C_TO_STRING_PLAIN)`, a deterministic serialization of exactly this
array of four-key objects. -/
structure MetaData where
  packages : Option (List JsonRecord)
  os_id : Option (List Char)
  os_version : Option (List Char)
deriving DecidableEq

/-- One `plugin_dispatch_values` call made through `dispatch_gauge`.  `typ`
models the `vl.type` field (`type` is reserved in Lean).  The gauge value is
the integer `count` (exactly representable as the C `gauge_t`). -/
structure Dispatch where
  plugin : String
  plugin_instance : String
  typ : String
  value : Nat
  meta : MetaData
deriving DecidableEq

/-- `dispatch_gauge(plugin_instance, type, value, meta)` from src/apk.c:
build a single-value value list for plugin "apk" and dispatch it. -/
def dispatch_gauge (plugin_instance : String) (typ : String) (value : Nat)
    (meta : MetaData) : Dispatch :=
  { plugin := "apk", plugin_instance := plugin_instance, typ := typ,
    value := value, meta := meta }

/-- The external world one call of `apk_upgradable_read` observes: whether
`apk_db_open` succeeds (success sets `db.open_complete`), whether
`apk_solver_solve` succeeds and the changeset it yields, the results of the
three `meta_data_add_string` calls, and the /etc/os-release content (`none`
when `fopen` fails). -/
structure Env where
  db_open_ok : Bool
  solver_ok : Bool
  changes : List ApkChange
  meta_packages_ok : Bool
  meta_os_id_ok : Bool
  meta_os_version_ok : Bool
  os_release_file : Option (List Char)
deriving DecidableEq

/-- The observable effects of one completed `apk_upgradable_read` call: its
return value, the dispatched value lists in order, how many times
`apk_db_close` ran, and the log lines with their severities. -/
structure Outcome where
  rc : Int
  dispatches : List Dispatch
  db_close_count : Nat
  logs : List (LogLevel × String)
deriving DecidableEq

/-- `apk_upgradable_read` from src/apk.c: one read cycle.  `.error f` models
the process aborting inside the changeset loop (a failed `assert` or the
NULL origin dereference); `.ok` is the outcome of a completed call.  The
`done:` epilogue closes the database exactly when `db.open_complete` is set,
i.e. when `apk_db_open` succeeded. -/
def apk_upgradable_read (env : Env) : Except CFault Outcome :=
  if env.db_open_ok = false then
    .ok { rc := -1, dispatches := [], db_close_count := 0,
          logs := [(.error, "failed to open apk database")] }
  else if env.solver_ok = false then
    .ok { rc := -1, dispatches := [], db_close_count := 1,
          logs := [(.error, "apk solver returned errors")] }
  else
    match collectChanges env.changes with
    | .error f => .error f
    | .ok (count, records) =>
      if env.meta_packages_ok = false then
        .ok { rc := -1, dispatches := [], db_close_count := 1,
              logs := [(.error, "unable to set value metadata")] }
      else
        let osr := read_os_release osReleaseInit env.os_release_file
        let osLogs : List (LogLevel × String) :=
          if osr.2 < 0 then [(.warn, "failed to read /etc/os-release")] else []
        let meta : MetaData :=
          { packages := some records,
            os_id := if env.meta_os_id_ok then some (bufStr osr.1.id) else none,
            os_version :=
              if env.meta_os_version_ok then some (bufStr osr.1.version_id)
              else none }
        .ok { rc := 0,
              dispatches := [dispatch_gauge "upgradable" "count" count meta],
              db_close_count := 1,
              logs := osLogs ++ [(.info, "metadata")] }

end CollectdApk

namespace CollectdApk

/-- In the changeset loop, `count` is incremented exactly when a record is
appended to `pkgs`, so on completion the count equals the number of records. -/
theorem collectChanges_count_length :
    ∀ (cs : List ApkChange) (n : Nat) (rs : List JsonRecord),
      collectChanges cs = Except.ok (n, rs) → n = rs.length := by
  intro cs
  induction cs with
  | nil =>
    intro n rs h
    simp only [collectChanges, Except.ok.injEq, Prod.mk.injEq] at h
    obtain ⟨h1, h2⟩ := h
    subst h1; subst h2; rfl
  | cons c rest ih =>
    intro n rs h
    unfold collectChanges at h
    split at h
    · cases hj : apk_change_to_json c with
      | error f => rw [hj] at h; simp at h
      | ok r =>
        rw [hj] at h
        cases hc : collectChanges rest with
        | error f => rw [hc] at h; simp at h
        | ok pr =>
          obtain ⟨m, rs'⟩ := pr
          rw [hc] at h
          simp only [Except.ok.injEq, Prod.mk.injEq] at h
          obtain ⟨h1, h2⟩ := h
          subst h1; subst h2
          simp [ih m rs' hc]
    · exact ih n rs h

/-- C1: a change with both packages present and differing versions is counted
and mapped to the record with name and origin from the old package, the old
version from the old package and the new version from the new package, under
the JSON keys p, o, v, w. -/
theorem upgrade_change_counted_and_mapped (i j : Nat) (op np : ApkPackage)
    (nm og : String) (h1 : op.name = some nm) (h2 : op.origin = some og)
    (hv : op.version ≠ np.version) :
    apk_change_to_json ⟨some (i, op), some (j, np)⟩ =
      .ok { p := nm, o := og, v := op.version, w := np.version } ∧
    ∀ (rest : List ApkChange) (n : Nat) (rs : List JsonRecord),
      collectChanges rest = .ok (n, rs) →
      collectChanges (⟨some (i, op), some (j, np)⟩ :: rest) =
        .ok (n + 1, { p := nm, o := og, v := op.version, w := np.version } :: rs) := by
  have hjson : apk_change_to_json ⟨some (i, op), some (j, np)⟩ =
      .ok { p := nm, o := og, v := op.version, w := np.version } := by
    simp [apk_change_to_json, h1, h2]
  refine ⟨hjson, ?_⟩
  intro rest n rs hc
  have hne : (some (i, op) : PkgPtr) ≠ some (j, np) := by
    intro heq
    simp only [Option.some.injEq, Prod.mk.injEq] at heq
    exact hv (by rw [heq.2])
  unfold collectChanges
  rw [if_pos hne, hjson, hc]

/-- C1 witness: a concrete upgrade of curl from 8.0.0-r0 to 8.1.0-r0 produces
exactly the record under keys p, o, v, w and is counted. -/
theorem upgrade_change_counted_and_mapped_witness :
    apk_change_to_json ⟨some (0, ⟨some "curl", some "curl", "8.0.0-r0"⟩),
                        some (1, ⟨some "curl", some "curl", "8.1.0-r0"⟩)⟩ =
      .ok { p := "curl", o := "curl", v := "8.0.0-r0", w := "8.1.0-r0" } ∧
    ∀ (rest : List ApkChange) (n : Nat) (rs : List JsonRecord),
      collectChanges rest = .ok (n, rs) →
      collectChanges (⟨some (0, ⟨some "curl", some "curl", "8.0.0-r0"⟩),
                       some (1, ⟨some "curl", some "curl", "8.1.0-r0"⟩)⟩ :: rest) =
        .ok (n + 1, { p := "curl", o := "curl", v := "8.0.0-r0", w := "8.1.0-r0" } :: rs) :=
  upgrade_change_counted_and_mapped 0 1 ⟨some "curl", some "curl", "8.0.0-r0"⟩
    ⟨some "curl", some "curl", "8.1.0-r0"⟩ "curl" "curl" rfl rfl (by decide)

/-- C2 counterexample: a change whose old side is absent but whose new side is
present is not silently skipped: the pointer filter `old_pkg != new_pkg`
accepts it, it is counted, and `apk_change_to_json` aborts the process on the
`assert(old_pkg)`. -/
theorem absent_side_not_skipped_cex :
    (⟨none, some (0, ⟨some "curl", some "curl", "8.1.0-r0"⟩)⟩ : ApkChange).old_pkg ≠
      (⟨none, some (0, ⟨some "curl", some "curl", "8.1.0-r0"⟩)⟩ : ApkChange).new_pkg ∧
    collectChanges [⟨none, some (0, ⟨some "curl", some "curl", "8.1.0-r0"⟩)⟩] =
      .error .assertOldPkgNull :=
  ⟨by simp, rfl⟩

/-- C2 amended: a change with BOTH sides absent is skipped (NULL equals NULL,
so the pointer filter rejects it); a change with exactly one side absent
passes the filter, is counted, and aborts on an assert (`assert(old_pkg)`
when the old side is absent, `assert(new_pkg)` when the new side is absent)
instead of being silently skipped. -/
theorem absent_side_amended (rest : List ApkChange) (i : Nat) (p : ApkPackage)
    (nm : String) (hp : p.name = some nm) :
    collectChanges (⟨none, none⟩ :: rest) = collectChanges rest ∧
    collectChanges (⟨none, some (i, p)⟩ :: rest) = .error .assertOldPkgNull ∧
    collectChanges (⟨some (i, p), none⟩ :: rest) = .error .assertNewPkgNull := by
  refine ⟨?_, ?_, ?_⟩
  · simp [collectChanges]
  · simp [collectChanges, apk_change_to_json]
  · simp [collectChanges, apk_change_to_json, hp]

/-- C2 amended witness at a concrete package. -/
theorem absent_side_amended_witness :
    collectChanges [(⟨none, none⟩ : ApkChange)] = collectChanges [] ∧
    collectChanges [(⟨none, some (0, ⟨some "musl", some "musl", "1.2.4-r0"⟩)⟩ : ApkChange)] =
      .error .assertOldPkgNull ∧
    collectChanges [(⟨some (0, ⟨some "musl", some "musl", "1.2.4-r0"⟩), none⟩ : ApkChange)] =
      .error .assertNewPkgNull :=
  absent_side_amended [] 0 ⟨some "musl", some "musl", "1.2.4-r0"⟩ "musl" rfl

/-- C3 counterexample: a change between two distinct package objects with
EQUAL versions is counted and produces a record: the loop filter compares
the pointers `old_pkg != new_pkg`, not the versions. -/
theorem equal_versions_counted_cex :
    collectChanges [⟨some (0, ⟨some "pkga", some "pkga", "1.0-r0"⟩),
                     some (1, ⟨some "pkgb", some "pkgb", "1.0-r0"⟩)⟩] =
      .ok (1, [{ p := "pkga", o := "pkga", v := "1.0-r0", w := "1.0-r0" }]) :=
  rfl

/-- C3 amended: a change is skipped (not counted, no record) exactly when old
and new are the same pointer; in particular a no-op change where the solver
keeps the very same package object is skipped, but equality of versions alone
does not cause a skip. -/
theorem identical_pointer_skipped (c : ApkChange) (rest : List ApkChange)
    (h : c.old_pkg = c.new_pkg) :
    collectChanges (c :: rest) = collectChanges rest := by
  simp [collectChanges, h]

/-- C3 amended witness: a no-op change carrying the same package object on
both sides contributes nothing. -/
theorem identical_pointer_skipped_witness :
    collectChanges [(⟨some (0, ⟨some "curl", some "curl", "8.0.0-r0"⟩),
                      some (0, ⟨some "curl", some "curl", "8.0.0-r0"⟩)⟩ : ApkChange)] =
      collectChanges [] :=
  identical_pointer_skipped _ [] rfl

end CollectdApk

namespace CollectdApk

/-- C4: for every completed call of the read callback, the database is closed
exactly once when `apk_db_open` succeeded and never when it failed, whatever
happens downstream.  (A failed assert aborts the process inside the loop and
is not an exit path of the callback.) -/
theorem db_close_iff_open_succeeded (env : Env) (out : Outcome)
    (h : apk_upgradable_read env = .ok out) :
    out.db_close_count = if env.db_open_ok = true then 1 else 0 := by
  unfold apk_upgradable_read at h
  split at h
  · rename_i hdb
    simp only [Except.ok.injEq] at h
    subst h
    simp [hdb]
  · rename_i hdb
    have hdb' : env.db_open_ok = true := by
      cases hb : env.db_open_ok
      · exact absurd hb hdb
      · rfl
    rw [hdb']
    split at h
    · simp only [Except.ok.injEq] at h
      subst h
      rfl
    · split at h
      · simp at h
      · split at h
        · simp only [Except.ok.injEq] at h
          subst h
          rfl
        · simp only [Except.ok.injEq] at h
          subst h
          rfl

/-- C4 witness at a concrete environment (everything succeeds, empty
changeset, missing os-release file). -/
theorem db_close_iff_open_succeeded_witness :
    (Outcome.db_close_count
      { rc := 0,
        dispatches := [dispatch_gauge "upgradable" "count" 0
          { packages := some [], os_id := some [], os_version := some [] }],
        db_close_count := 1,
        logs := [(.warn, "failed to read /etc/os-release"), (.info, "metadata")] }) =
      if (Env.db_open_ok ⟨true, true, [], true, true, true, none⟩) = true then 1 else 0 :=
  db_close_iff_open_succeeded ⟨true, true, [], true, true, true, none⟩ _ rfl

/-- C5: a completed call that returns success dispatches exactly one value
list: a "count"-typed gauge for plugin instance "upgradable" whose value is
the number of collected upgrade records, which equals the length of the
packages array attached to the metadata. -/
theorem success_single_dispatch (env : Env) (out : Outcome)
    (h : apk_upgradable_read env = .ok out) (hrc : out.rc = 0) :
    ∃ d recs, out.dispatches = [d] ∧
      d.plugin = "apk" ∧ d.plugin_instance = "upgradable" ∧ d.typ = "count" ∧
      d.meta.packages = some recs ∧ d.value = recs.length := by
  unfold apk_upgradable_read at h
  split at h
  · simp only [Except.ok.injEq] at h
    subst h
    exact absurd hrc (by decide)
  · split at h
    · simp only [Except.ok.injEq] at h
      subst h
      exact absurd hrc (by decide)
    · split at h
      · simp at h
      · rename_i count records heq
        split at h
        · simp only [Except.ok.injEq] at h
          subst h
          exact absurd hrc (by decide)
        · simp only [Except.ok.injEq] at h
          subst h
          refine ⟨_, records, rfl, rfl, rfl, rfl, rfl, ?_⟩
          exact collectChanges_count_length env.changes count records heq

/-- C5 witness: one concrete upgrade dispatched with value 1 = one record. -/
theorem success_single_dispatch_witness :
    ∃ d recs,
      (Outcome.dispatches
        { rc := 0,
          dispatches := [dispatch_gauge "upgradable" "count" 1
            { packages := some [{ p := "curl", o := "curl", v := "8.0.0-r0", w := "8.1.0-r0" }],
              os_id := some [], os_version := some [] }],
          db_close_count := 1,
          logs := [(.warn, "failed to read /etc/os-release"), (.info, "metadata")] }) = [d] ∧
      d.plugin = "apk" ∧ d.plugin_instance = "upgradable" ∧ d.typ = "count" ∧
      d.meta.packages = some recs ∧ d.value = recs.length :=
  success_single_dispatch
    ⟨true, true,
      [⟨some (0, ⟨some "curl", some "curl", "8.0.0-r0"⟩),
        some (1, ⟨some "curl", some "curl", "8.1.0-r0"⟩)⟩],
      true, true, true, none⟩ _ rfl rfl

/-- C6: when the database fails to open or the solver fails, the cycle
dispatches nothing, logs at error severity, and the callback returns a
non-zero code.  The callback's outcome is a function of the cycle's own
environment alone (the embedding is a pure function of `Env`), so no state
is carried into the next cycle. -/
theorem open_or_solver_failure_no_dispatch (env : Env)
    (h : env.db_open_ok = false ∨ env.solver_ok = false) :
    ∃ out, apk_upgradable_read env = .ok out ∧
      out.dispatches = [] ∧ out.rc = -1 ∧ out.rc ≠ 0 ∧
      ∃ m, (LogLevel.error, m) ∈ out.logs := by
  by_cases hdb : env.db_open_ok = false
  · have heq : apk_upgradable_read env = .ok
        { rc := -1, dispatches := [], db_close_count := 0,
          logs := [(.error, "failed to open apk database")] } := by
      unfold apk_upgradable_read
      rw [if_pos hdb]
    exact ⟨_, heq, rfl, rfl, by decide, "failed to open apk database", by simp⟩
  · have hs : env.solver_ok = false := by
      rcases h with h | h
      · exact absurd h hdb
      · exact h
    have heq : apk_upgradable_read env = .ok
        { rc := -1, dispatches := [], db_close_count := 1,
          logs := [(.error, "apk solver returned errors")] } := by
      unfold apk_upgradable_read
      rw [if_neg hdb, if_pos hs]
    exact ⟨_, heq, rfl, rfl, by decide, "apk solver returned errors", by simp⟩

/-- C6 witness at a concrete environment whose database open fails. -/
theorem open_or_solver_failure_no_dispatch_witness :
    ∃ out, apk_upgradable_read ⟨false, true, [], true, true, true, none⟩ = .ok out ∧
      out.dispatches = [] ∧ out.rc = -1 ∧ out.rc ≠ 0 ∧
      ∃ m, (LogLevel.error, m) ∈ out.logs :=
  open_or_solver_failure_no_dispatch ⟨false, true, [], true, true, true, none⟩ (Or.inl rfl)

end CollectdApk

namespace CollectdApk

/-- C7 counterexample: when attaching the "os-id" metadata field fails, the
cycle is NOT fatal: the result of `meta_data_add_string(meta, "os-id", ...)`
is ignored, no error is logged for it, the measurement is still dispatched
(with the key absent) and the callback returns 0. -/
theorem os_meta_attach_failure_not_fatal_cex :
    apk_upgradable_read ⟨true, true, [], true, false, true, none⟩ =
      .ok { rc := 0,
            dispatches := [dispatch_gauge "upgradable" "count" 0
              { packages := some [], os_id := none, os_version := some [] }],
            db_close_count := 1,
            logs := [(.warn, "failed to read /etc/os-release"), (.info, "metadata")] } :=
  rfl

/-- C7 amended: only a failure to attach the "packages" field is fatal to the
cycle (error logged, no measurement, database still closed, failure code);
the results of attaching "os-id" and "os-version" are ignored, and the cycle
dispatches its measurement and returns success whatever they are. -/
theorem packages_meta_attach_fatal (env : Env) (count : Nat)
    (recs : List JsonRecord) (hdb : env.db_open_ok = true)
    (hs : env.solver_ok = true)
    (hc : collectChanges env.changes = .ok (count, recs)) :
    (env.meta_packages_ok = false →
      apk_upgradable_read env = .ok
        { rc := -1, dispatches := [], db_close_count := 1,
          logs := [(.error, "unable to set value metadata")] }) ∧
    (env.meta_packages_ok = true →
      ∃ out, apk_upgradable_read env = .ok out ∧ out.rc = 0 ∧
        out.dispatches.length = 1 ∧ out.db_close_count = 1) := by
  constructor
  · intro hm
    unfold apk_upgradable_read
    rw [if_neg (by simp [hdb]), if_neg (by simp [hs]), hc, hm]
    rfl
  · intro hm
    have heq : apk_upgradable_read env = .ok
        { rc := 0,
          dispatches := [dispatch_gauge "upgradable" "count" count
            { packages := some recs,
              os_id := if env.meta_os_id_ok = true then
                some (bufStr (read_os_release osReleaseInit env.os_release_file).1.id)
                else none,
              os_version := if env.meta_os_version_ok = true then
                some (bufStr (read_os_release osReleaseInit env.os_release_file).1.version_id)
                else none }],
          db_close_count := 1,
          logs := (if (read_os_release osReleaseInit env.os_release_file).2 < 0 then
              [(LogLevel.warn, "failed to read /etc/os-release")] else []) ++
            [(.info, "metadata")] } := by
      unfold apk_upgradable_read
      rw [if_neg (by simp [hdb]), if_neg (by simp [hs]), hc, hm]
      rfl
    exact ⟨_, heq, rfl, rfl, rfl⟩

/-- C7 amended witness: a concrete cycle where the "packages" attach fails. -/
theorem packages_meta_attach_fatal_witness :
    apk_upgradable_read ⟨true, true, [], false, true, true, none⟩ =
      .ok { rc := -1, dispatches := [], db_close_count := 1,
            logs := [(.error, "unable to set value metadata")] } :=
  (packages_meta_attach_fatal ⟨true, true, [], false, true, true, none⟩ 0 [] rfl rfl rfl).1 rfl

/-- C8 counterexample: a change whose old package has a non-NULL name but a
NULL origin passes all three asserts of `apk_change_to_json`; the failure is
the unchecked dereference `*old_pkg->origin` after them, not an assertion. -/
theorem origin_not_asserted_cex :
    apk_change_to_json ⟨some (0, ⟨some "curl", none, "8.0.0-r0"⟩),
                        some (1, ⟨some "curl", none, "8.1.0-r0"⟩)⟩ =
      .error .originNullDeref ∧
    CFault.isAssert .originNullDeref = false :=
  ⟨rfl, rfl⟩

/-- C8 amended: the unconditional asserts of `apk_change_to_json` enforce, in
order, that `old_pkg`, `old_pkg->name` and `new_pkg` are non-NULL before the
record fields are read; `old_pkg->origin` is NOT asserted — with both sides
present and a non-NULL name, a NULL origin reaches the unchecked dereference
(undefined behavior in C), which is not an assertion. -/
theorem asserts_cover_oldpkg_name_newpkg (i : Nat) (op : ApkPackage)
    (p2 : PkgPtr) :
    (apk_change_to_json ⟨none, p2⟩ = .error .assertOldPkgNull) ∧
    (op.name = none →
      apk_change_to_json ⟨some (i, op), p2⟩ = .error .assertOldNameNull) ∧
    (∀ nm, op.name = some nm →
      apk_change_to_json ⟨some (i, op), none⟩ = .error .assertNewPkgNull) ∧
    (∀ j np nm, op.name = some nm → op.origin = none →
      apk_change_to_json ⟨some (i, op), some (j, np)⟩ = .error .originNullDeref ∧
      CFault.isAssert .originNullDeref = false) := by
  refine ⟨rfl, ?_, ?_, ?_⟩
  · intro hn
    simp [apk_change_to_json, hn]
  · intro nm hn
    simp [apk_change_to_json, hn]
  · intro j np nm hn ho
    exact ⟨by simp [apk_change_to_json, hn, ho], rfl⟩

/-- C8 amended witness at a concrete change with NULL origin. -/
theorem asserts_cover_oldpkg_name_newpkg_witness :
    apk_change_to_json ⟨some (0, ⟨some "zlib", none, "1.2.13-r0"⟩),
                        some (1, ⟨some "zlib", none, "1.3-r0"⟩)⟩ =
      .error .originNullDeref ∧
    CFault.isAssert .originNullDeref = false :=
  (asserts_cover_oldpkg_name_newpkg 0 ⟨some "zlib", none, "1.2.13-r0"⟩
      (some (1, ⟨some "zlib", none, "1.3-r0"⟩))).2.2.2 1
    ⟨some "zlib", none, "1.3-r0"⟩ "zlib" rfl rfl

/-- C9 counterexample: with an os-release file whose content is unparseable
(here a line with no `=` assignment), the cycle completes, the os fields are
empty, a measurement is emitted — but NO warning is logged: `read_os_release`
returns 0 whenever the file opens, and parse failures inside are ignored. -/
theorem unparseable_content_no_warning_cex :
    apk_upgradable_read ⟨true, true, [], true, true, true, some "garbage\n".data⟩ =
      .ok { rc := 0,
            dispatches := [dispatch_gauge "upgradable" "count" 0
              { packages := some [], os_id := some [], os_version := some [] }],
            db_close_count := 1,
            logs := [(.info, "metadata")] } ∧
    ∀ m, (LogLevel.warn, m) ∉ [((LogLevel.info : LogLevel), "metadata")] :=
  ⟨rfl, by simp⟩

/-- C9 amended: when the os-release file is missing, the os fields stay empty,
a warning is logged and the cycle still completes and emits its measurement;
when the file opens, `read_os_release` returns 0 whatever the content, so
unparseable content leaves the fields empty WITHOUT any warning; in neither
case is the failure fatal. -/
theorem os_release_missing_warn_nonfatal (env : Env) (count : Nat)
    (recs : List JsonRecord) (hdb : env.db_open_ok = true)
    (hs : env.solver_ok = true)
    (hc : collectChanges env.changes = .ok (count, recs))
    (hm : env.meta_packages_ok = true) (hi : env.meta_os_id_ok = true)
    (hv : env.meta_os_version_ok = true) (hf : env.os_release_file = none) :
    apk_upgradable_read env = .ok
      { rc := 0,
        dispatches := [dispatch_gauge "upgradable" "count" count
          { packages := some recs, os_id := some [], os_version := some [] }],
        db_close_count := 1,
        logs := [(.warn, "failed to read /etc/os-release"), (.info, "metadata")] } ∧
    ∀ content, (read_os_release osReleaseInit (some content)).2 = 0 := by
  constructor
  · unfold apk_upgradable_read
    rw [if_neg (by simp [hdb]), if_neg (by simp [hs]), hc, hm, hi, hv, hf]
    rfl
  · intro content
    rfl

/-- C9 amended witness at a concrete all-success environment. -/
theorem os_release_missing_warn_nonfatal_witness :
    apk_upgradable_read ⟨true, true, [], true, true, true, none⟩ = .ok
      { rc := 0,
        dispatches := [dispatch_gauge "upgradable" "count" 0
          { packages := some [], os_id := some [], os_version := some [] }],
        db_close_count := 1,
        logs := [(.warn, "failed to read /etc/os-release"), (.info, "metadata")] } ∧
    (read_os_release osReleaseInit (some "ID=alpine\n".data)).2 = 0 :=
  ⟨(os_release_missing_warn_nonfatal ⟨true, true, [], true, true, true, none⟩ 0 []
      rfl rfl rfl rfl rfl rfl rfl).1,
   (os_release_missing_warn_nonfatal ⟨true, true, [], true, true, true, none⟩ 0 []
      rfl rfl rfl rfl rfl rfl rfl).2 "ID=alpine\n".data⟩

/-- `strchr` returns NULL exactly when the character does not occur. -/
theorem strchrIdx_eq_none_of_not_mem (s : List Char) (c : Char) (h : c ∉ s) :
    strchrIdx s c = none := by
  induction s with
  | nil => rfl
  | cons d rest ih =>
    simp only [List.mem_cons, not_or] at h
    unfold strchrIdx
    rw [if_neg (fun hdc => h.1 hdc.symm), ih h.2]
    rfl

/-- C10: an input beginning with a single or double quote that never recurs
makes `parse_enclosed_word` return -1 without writing to the destination
buffer; consequently an os-release line `ID=` followed by such a value
leaves the `id` field exactly as it was. -/
theorem unclosed_quote_leaves_dest (dest : List Char) (q : Char)
    (rest : List Char) (max_len : Nat) (os : OsRelease)
    (hq : q = '"' ∨ q = '\'') (hno : q ∉ rest) :
    parse_enclosed_word dest (q :: rest) max_len = (dest, -1) ∧
    osReleaseLine os ('I' :: 'D' :: '=' :: q :: rest) = os := by
  have hpw : ∀ (d : List Char) (ml : Nat),
      parse_enclosed_word d (q :: rest) ml = (d, -1) := by
    intro d ml
    simp only [parse_enclosed_word]
    rw [if_pos hq, strchrIdx_eq_none_of_not_mem rest q hno]
  refine ⟨hpw dest max_len, ?_⟩
  have hscan : scanKeyValue ('I' :: 'D' :: '=' :: q :: rest) =
      some (['I', 'D'], 3) := rfl
  unfold osReleaseLine
  rw [hscan]
  show { os with id := (parse_enclosed_word os.id (q :: rest) 64).1 } = os
  rw [hpw os.id 64]

/-- C10 witness: `"alpine` (opening double quote, no closing one). -/
theorem unclosed_quote_leaves_dest_witness :
    parse_enclosed_word (List.replicate 64 '\x00') ('"' :: "alpine".data) 64 =
      (List.replicate 64 '\x00', -1) ∧
    osReleaseLine osReleaseInit ('I' :: 'D' :: '=' :: '"' :: "alpine".data) =
      osReleaseInit :=
  unclosed_quote_leaves_dest (List.replicate 64 '\x00') '"' "alpine".data 64
    osReleaseInit (Or.inl rfl) (by decide)

end CollectdApk
